import Mathlib

/-!
Shallow embedding of `official/vision/detection/main.py` (TFmodels).

The file under study is a CLI orchestrator: it merges a configuration,
validates and locks it, selects file patterns, builds input functions and
dispatches to an external distributed executor for training or evaluation.
We model the orchestrator's observable control flow as a pure function from
the command-line flags, an environment record standing for the external
collaborators (strategy runtime, distributed executor, external validation
verdict), and the base configuration produced by the config factory, to a
trace of events plus a result or error.

Numeric conventions: Python integers are `Nat` (all quantities involved are
non-negative); Python `//` on non-negative ints is `Nat` division.  The file
has `from __future__ import division`, so `(replicas + 7) / 8` is Python
float division; division of an integer-valued IEEE double by 8 is exact
(it only shifts the exponent) for every realistic replica count, and for
counts beyond 2^53 the compared value is far above 1 anyway, so the
comparison `(replicas + 7) / 8 > 1` agrees with the exact rational
comparison, which is how we model it (`ℚ`, not floats).
-/

namespace DetectionMain

/-- Mode keys from `official.vision.detection.dataloader.mode_keys`, as used
by this file: `TRAIN` and `PREDICT_WITH_GT`. -/
inductive ModeKey
  | TRAIN
  | PREDICT_WITH_GT
  deriving DecidableEq

/-- Errors observable at this layer.  `unknownKey` is the ConfigError raised
by a strict override on an unknown key, `lockedMutation` the error raised by
mutating a locked params dict, `validationError` the external validation
failure, `missingInput` / `modeNotFound` the two `ValueError`s raised in
`main` / `run_executor`, and `typeError` the error `functools` raises when
its argument-binding helper is applied to a non-callable first argument. -/
inductive RunError
  | unknownKey (key : String)
  | lockedMutation
  | validationError
  | missingInput (msg : String)
  | modeNotFound (msg : String)
  | typeError (msg : String)
  deriving DecidableEq

/-- The data bound into an `input_reader.InputFn`: file pattern, mode,
batch size and (for eval) the number of examples.  The reader itself is an
external collaborator; only the bound arguments are observable here. -/
structure InputFn where
  file_pattern : String
  mode : ModeKey
  batch_size : ℕ
  num_examples : Option ℕ
  deriving DecidableEq

/-- The configuration object, restricted to the fields this file reads.
`params.train.batch_size` is flattened to `train_batch_size`, and so on.
A file pattern that is Python `None` is modelled as the empty string, which
has the same truthiness.  `locked` is the params-dict lock flag.

Modelled from the spec: the `ParamsDict` class itself
(`official.modeling.hyperparams.params_dict`) is not part of this
repository snapshot; the spec describes it as a nested mapping that is
validated and then locked against further mutation. -/
structure Params where
  strategy_type : String
  model_dir : String
  strategy_config : List (String × String)
  train_batch_size : ℕ
  train_file_pattern : String
  train_iterations_per_loop : ℕ
  train_total_steps : ℕ
  eval_batch_size : ℕ
  eval_file_pattern : String
  eval_samples : ℕ
  eval_timeout : ℕ
  eval_min_interval : ℕ
  locked : Bool
  deriving DecidableEq

/-- The flattened key names of the configuration fields above; a strict
override may only reference these. -/
def knownKeys : List String :=
  ["strategy_type", "model_dir", "strategy_config",
   "train.batch_size", "train.train_file_pattern",
   "train.iterations_per_loop", "train.total_steps",
   "eval.batch_size", "eval.eval_file_pattern", "eval.eval_samples",
   "eval.eval_timeout", "eval.min_eval_interval"]

/-- An override document (a YAML config file or the inline
`params_override` string): the set of keys it references, and the field
updates it performs when accepted. -/
structure ParamsOverride where
  keys : List String
  updates : Params → Params

/-- First key of an override that is not a known configuration key, if any. -/
def firstUnknownKey (o : ParamsOverride) : Option String :=
  o.keys.find? (fun k => !(knownKeys.contains k))

/-- Modelled from the spec: `params_dict.override_params_dict(params, doc,
is_strict)` is not in this snapshot.  Per the spec, a strict override fails
with ConfigError when a referenced key is unknown, a `None` document leaves
the params unchanged, and a locked params dict rejects every mutation.
The accepted updates never touch the lock flag. -/
def override_params_dict (params : Params) (doc : Option ParamsOverride)
    (is_strict : Bool) : Except RunError Params :=
  match doc with
  | none => .ok params
  | some o =>
    if params.locked then .error .lockedMutation
    else if is_strict then
      match firstUnknownKey o with
      | some k => .error (.unknownKey k)
      | none => .ok { o.updates params with locked := params.locked }
    else .ok { o.updates params with locked := params.locked }

/-- Modelled from the spec: the non-strict `params.override({...})` call
injecting strategy type, model directory and strategy configuration; a
locked params dict rejects the mutation. -/
def Params.overrideRuntime (p : Params) (strategy_type model_dir : String)
    (strategy_config : List (String × String)) : Except RunError Params :=
  if p.locked then .error .lockedMutation
  else .ok { p with strategy_type := strategy_type, model_dir := model_dir,
                    strategy_config := strategy_config }

/-- Modelled from the spec: `params.validate()` applies externally defined
rules; we take the external verdict as a boolean. -/
def Params.validate (_p : Params) (verdict : Bool) : Except RunError Unit :=
  if verdict then .ok () else .error .validationError

/-- Modelled from the spec: `params.lock()` marks the dict immutable. -/
def Params.lock (p : Params) : Params := { p with locked := true }

/-- The command-line flags the file consumes.  `config_file` and
`params_override` carry the parsed override documents; a flag left unset is
`none`. -/
structure Flags where
  mode : String
  model : String
  training_file_pattern : Option String
  eval_file_pattern : Option String
  config_file : Option ParamsOverride
  params_override : Option ParamsOverride
  strategy_type : String
  model_dir : String
  strategy_flags : List (String × String)

/-- The external collaborators' observable behaviour for one run: the
strategy's replica count, an opaque token for the training outcome, the
metric mapping the executor's evaluate-from-checkpoints operation reports,
and the external validation verdict. -/
structure Env where
  num_replicas_in_sync : ℕ
  train_outcome : ℕ
  eval_results : List (String × ℚ)
  validate_ok : Bool

/-- Python `flag or cfg` on an optional string flag and a string config
value: the flag wins iff it is set and non-empty (truthy). -/
def pyOr (flag : Option String) (cfg : String) : String :=
  match flag with
  | none => cfg
  | some s => if s = "" then cfg else s

/-- Source line `num_workers = (builder.strategy.num_replicas_in_sync + 7) / 8` under
`from __future__ import division`: exact (rational) division, see the header
note on float exactness. -/
def num_workers (replicas : ℕ) : ℚ := (replicas + 7) / 8

/-- Source line `is_multi_host = (num_workers > 1)`. -/
def is_multi_host (replicas : ℕ) : Bool := decide (1 < num_workers replicas)

/-- Observable events of a run, in program order. -/
inductive Event
  | configGenerator (model : String)
  | overrideFromFile
  | overrideFromFlags
  | overrideNonStrict
  | validateParams
  | lockParams
  | buildTrainInput (fn : InputFn)
  | buildEvalInput (fn : InputFn)
  | modelGenerator (model : String)
  | executorBuilder (strategy_type : String)
  | rebindTrainBatch (batch_size : ℕ)
  | buildExecutor (is_multi_host : Bool)
  | buildExecutorEval
  | executorTrain (fn : Option InputFn) (model_dir : String)
      (iterations_per_loop : ℕ) (total_steps : ℕ)
  | evaluateFromModelDir (fn : Option InputFn) (model_dir : String)
      (eval_timeout : ℕ) (min_eval_interval : ℕ) (total_steps : ℕ)
  | logMetric (name : String) (value : ℚ)
  deriving DecidableEq

/-- What a run returns: the training outcome object, or the metric mapping. -/
inductive RunResult
  | trainResult (token : ℕ)
  | evalResult (metrics : List (String × ℚ))
  deriving DecidableEq

/-- Translation of `run_executor(params, train_input_fn, eval_input_fn)`: builds the model
via the factory, then dispatches on `FLAGS.mode`.  In train mode it builds
an `ExecutorBuilder`, computes `num_workers` and `is_multi_host`, rebinds
the train input function's batch size to
`params.train.batch_size // num_replicas_in_sync` when multi-host (the
rebinding helper raises a TypeError when the input function is `None`),
builds the executor and calls its `train`; in eval mode it builds the
executor and calls `evaluate_from_model_dir`, logging each returned metric
before returning the mapping; any other mode raises
`ValueError('Mode not found: %s.')`. -/
def run_executor (flags : Flags) (env : Env) (params : Params)
    (train_input_fn eval_input_fn : Option InputFn) :
    List Event × Except RunError RunResult :=
  let ev0 : List Event := [Event.modelGenerator flags.model]
  if flags.mode = "train" then
    let ev1 := ev0 ++ [Event.executorBuilder params.strategy_type]
    let replicas := env.num_replicas_in_sync
    if is_multi_host replicas then
      match train_input_fn with
      | none => (ev1, .error (.typeError ("the first argument must be callable")))
      | some f =>
        let f2 : InputFn := { f with batch_size := params.train_batch_size / replicas }
        let ev2 := ev1 ++ [Event.rebindTrainBatch f2.batch_size,
                           Event.buildExecutor true]
        (ev2 ++ [Event.executorTrain (some f2) params.model_dir
                   params.train_iterations_per_loop params.train_total_steps],
         .ok (.trainResult env.train_outcome))
    else
      let ev2 := ev1 ++ [Event.buildExecutor false]
      (ev2 ++ [Event.executorTrain train_input_fn params.model_dir
                 params.train_iterations_per_loop params.train_total_steps],
       .ok (.trainResult env.train_outcome))
  else if flags.mode = "eval" then
    let ev1 := ev0 ++ [Event.executorBuilder params.strategy_type,
                       Event.buildExecutorEval,
                       Event.evaluateFromModelDir eval_input_fn params.model_dir
                         params.eval_timeout params.eval_min_interval
                         params.train_total_steps]
    (ev1 ++ env.eval_results.map (fun kv => Event.logMetric kv.1 kv.2),
     .ok (.evalResult env.eval_results))
  else
    (ev0, .error (.modeNotFound ("Mode not found: " ++ flags.mode ++ ".")))

/-- The configuration phase of `main` (its first six statements): config
factory, the two strict overrides, the non-strict runtime override,
validate, lock.  Returns the trace of the steps attempted and the locked
params or the first error. -/
def mainConfig (flags : Flags) (env : Env) (base : Params) :
    List Event × Except RunError Params :=
  let tr1 := [Event.configGenerator flags.model, Event.overrideFromFile]
  match override_params_dict base flags.config_file true with
  | .error e => (tr1, .error e)
  | .ok p1 =>
    let tr2 := tr1 ++ [Event.overrideFromFlags]
    match override_params_dict p1 flags.params_override true with
    | .error e => (tr2, .error e)
    | .ok p2 =>
      let tr3 := tr2 ++ [Event.overrideNonStrict]
      match p2.overrideRuntime flags.strategy_type flags.model_dir
              flags.strategy_flags with
      | .error e => (tr3, .error e)
      | .ok p3 =>
        let tr4 := tr3 ++ [Event.validateParams]
        match p3.validate env.validate_ok with
        | .error e => (tr4, .error e)
        | .ok _ => (tr4 ++ [Event.lockParams], .ok p3.lock)

/-- A run's observable outcome: its event trace, its result or error, and
the params object in use when `run_executor` was entered (if it was). -/
structure Outcome where
  trace : List Event
  result : Except RunError RunResult
  finalParams : Option Params

/-- The rest of `main` after the configuration phase: choose the file
patterns (`FLAGS.x or params...`), require at least one, build the input
functions for the patterns present, and call `run_executor`. -/
def mainRun (flags : Flags) (env : Env) (tr : List Event) (p : Params) :
    Outcome :=
  let training_file_pattern := pyOr flags.training_file_pattern p.train_file_pattern
  let eval_file_pattern := pyOr flags.eval_file_pattern p.eval_file_pattern
  if training_file_pattern = "" ∧ eval_file_pattern = "" then
    ⟨tr, .error (.missingInput
      "Must provide at least one of training_file_pattern and eval_file_pattern."),
     none⟩
  else
    let train_input_fn : Option InputFn :=
      if training_file_pattern = "" then none
      else some { file_pattern := training_file_pattern, mode := ModeKey.TRAIN,
                  batch_size := p.train_batch_size, num_examples := none }
    let eval_input_fn : Option InputFn :=
      if eval_file_pattern = "" then none
      else some { file_pattern := eval_file_pattern,
                  mode := ModeKey.PREDICT_WITH_GT,
                  batch_size := p.eval_batch_size,
                  num_examples := some p.eval_samples }
    let trA := tr
      ++ (match train_input_fn with
          | some f => [Event.buildTrainInput f]
          | none => [])
      ++ (match eval_input_fn with
          | some f => [Event.buildEvalInput f]
          | none => [])
    let res := run_executor flags env p train_input_fn eval_input_fn
    ⟨trA ++ res.1, res.2, some p⟩

/-- Translation of `main(argv)`: the configuration phase followed by the run phase. -/
def main (flags : Flags) (env : Env) (base : Params) : Outcome :=
  match mainConfig flags env base with
  | (tr, .error e) => ⟨tr, .error e, none⟩
  | (tr, .ok p) => mainRun flags env tr p

def trainFn (flags : Flags) (p : Params) : Option InputFn :=
  if pyOr flags.training_file_pattern p.train_file_pattern = "" then none
  else some { file_pattern := pyOr flags.training_file_pattern p.train_file_pattern,
              mode := ModeKey.TRAIN,
              batch_size := p.train_batch_size, num_examples := none }

def evalFn (flags : Flags) (p : Params) : Option InputFn :=
  if pyOr flags.eval_file_pattern p.eval_file_pattern = "" then none
  else some { file_pattern := pyOr flags.eval_file_pattern p.eval_file_pattern,
              mode := ModeKey.PREDICT_WITH_GT,
              batch_size := p.eval_batch_size, num_examples := some p.eval_samples }

def wBase : Params :=
  { strategy_type := "", model_dir := "", strategy_config := [],
    train_batch_size := 64, train_file_pattern := "gs://train",
    train_iterations_per_loop := 10, train_total_steps := 100,
    eval_batch_size := 8, eval_file_pattern := "gs://eval",
    eval_samples := 500, eval_timeout := 3600, eval_min_interval := 180,
    locked := false }

def wFlags : Flags :=
  { mode := "train", model := "retinanet",
    training_file_pattern := none, eval_file_pattern := none,
    config_file := none, params_override := none,
    strategy_type := "tpu", model_dir := "gs://model", strategy_flags := [] }

def wEnv : Env :=
  { num_replicas_in_sync := 16, train_outcome := 0,
    eval_results := [("AP", 37)], validate_ok := true }

def wTrace : List Event :=
  [Event.configGenerator ("retinanet"), Event.overrideFromFile,
   Event.overrideFromFlags, Event.overrideNonStrict,
   Event.validateParams, Event.lockParams]

def wP : Params :=
  { wBase with strategy_type := "tpu", model_dir := "gs://model", locked := true }

def xBase9 : Params := { wBase with train_file_pattern := "" }

def xFlags9 : Flags := { wFlags with eval_file_pattern := some ("gs://eval-only") }

def xEnv9 : Env := { wEnv with num_replicas_in_sync := 2 }

def x9P : Params := { wP with train_file_pattern := "" }

def w4Base : Params := { wBase with train_file_pattern := "", eval_file_pattern := "" }

def w4P : Params := { wP with train_file_pattern := "", eval_file_pattern := "" }

def ovBad : ParamsOverride := ⟨["bogus.key"], fun p => p⟩

def ovAny : ParamsOverride := ⟨["model_dir"], fun p => p⟩

theorem main_ok (flags : Flags) (env : Env) (base : Params)
    (tr : List Event) (p : Params)
    (h : mainConfig flags env base = (tr, Except.ok p)) :
    main flags env base = mainRun flags env tr p := by
  unfold main; rw [h]

theorem main_err (flags : Flags) (env : Env) (base : Params)
    (tr : List Event) (e : RunError)
    (h : mainConfig flags env base = (tr, Except.error e)) :
    main flags env base = ⟨tr, Except.error e, none⟩ := by
  unfold main; rw [h]

theorem mainRun_missing (flags : Flags) (env : Env) (tr : List Event) (p : Params)
    (h1 : pyOr flags.training_file_pattern p.train_file_pattern = "")
    (h2 : pyOr flags.eval_file_pattern p.eval_file_pattern = "") :
    mainRun flags env tr p =
      ⟨tr, Except.error (RunError.missingInput
        "Must provide at least one of training_file_pattern and eval_file_pattern."),
       none⟩ := by
  simp only [mainRun]
  rw [if_pos ⟨h1, h2⟩]

theorem mainRun_go (flags : Flags) (env : Env) (tr : List Event) (p : Params)
    (h : ¬(pyOr flags.training_file_pattern p.train_file_pattern = "" ∧
           pyOr flags.eval_file_pattern p.eval_file_pattern = "")) :
    mainRun flags env tr p =
      ⟨tr ++ (match trainFn flags p with
              | some f => [Event.buildTrainInput f]
              | none => [])
          ++ (match evalFn flags p with
              | some f => [Event.buildEvalInput f]
              | none => [])
          ++ (run_executor flags env p (trainFn flags p) (evalFn flags p)).1,
       (run_executor flags env p (trainFn flags p) (evalFn flags p)).2,
       some p⟩ := by
  simp only [mainRun, trainFn, evalFn]
  rw [if_neg h]

theorem run_executor_train_multi (flags : Flags) (env : Env) (p : Params)
    (f : InputFn) (efn : Option InputFn)
    (hm : flags.mode = "train")
    (him : is_multi_host env.num_replicas_in_sync = true) :
    run_executor flags env p (some f) efn =
      ([Event.modelGenerator flags.model, Event.executorBuilder p.strategy_type,
        Event.rebindTrainBatch (p.train_batch_size / env.num_replicas_in_sync),
        Event.buildExecutor true,
        Event.executorTrain
          (some { f with batch_size := p.train_batch_size / env.num_replicas_in_sync })
          p.model_dir p.train_iterations_per_loop p.train_total_steps],
       Except.ok (RunResult.trainResult env.train_outcome)) := by
  simp [run_executor, hm, him]

theorem run_executor_train_multi_none (flags : Flags) (env : Env) (p : Params)
    (efn : Option InputFn)
    (hm : flags.mode = "train")
    (him : is_multi_host env.num_replicas_in_sync = true) :
    run_executor flags env p none efn =
      ([Event.modelGenerator flags.model, Event.executorBuilder p.strategy_type],
       Except.error (RunError.typeError ("the first argument must be callable"))) := by
  simp [run_executor, hm, him]

theorem run_executor_train_single (flags : Flags) (env : Env) (p : Params)
    (tfn efn : Option InputFn)
    (hm : flags.mode = "train")
    (him : is_multi_host env.num_replicas_in_sync = false) :
    run_executor flags env p tfn efn =
      ([Event.modelGenerator flags.model, Event.executorBuilder p.strategy_type,
        Event.buildExecutor false,
        Event.executorTrain tfn p.model_dir p.train_iterations_per_loop
          p.train_total_steps],
       Except.ok (RunResult.trainResult env.train_outcome)) := by
  simp [run_executor, hm, him]

theorem run_executor_eval (flags : Flags) (env : Env) (p : Params)
    (tfn efn : Option InputFn)
    (hm : flags.mode = "eval") :
    run_executor flags env p tfn efn =
      ([Event.modelGenerator flags.model, Event.executorBuilder p.strategy_type,
        Event.buildExecutorEval,
        Event.evaluateFromModelDir efn p.model_dir p.eval_timeout
          p.eval_min_interval p.train_total_steps]
        ++ env.eval_results.map (fun kv => Event.logMetric kv.1 kv.2),
       Except.ok (RunResult.evalResult env.eval_results)) := by
  have : ¬ (flags.mode = "train") := by rw [hm]; decide
  simp [run_executor, hm, this]

theorem run_executor_other (flags : Flags) (env : Env) (p : Params)
    (tfn efn : Option InputFn)
    (hm1 : flags.mode ≠ "train") (hm2 : flags.mode ≠ "eval") :
    run_executor flags env p tfn efn =
      ([Event.modelGenerator flags.model],
       Except.error (RunError.modeNotFound
         ("Mode not found: " ++ flags.mode ++ "."))) := by
  simp [run_executor, hm1, hm2]

theorem is_multi_host_iff (r : ℕ) : is_multi_host r = decide (1 < r) := by
  unfold is_multi_host num_workers
  rw [decide_eq_decide, lt_div_iff₀ (by norm_num : (0:ℚ) < 8), one_mul]
  norm_cast
  omega

theorem mainConfig_trace_shape (flags : Flags) (env : Env) (base : Params) :
    ∀ ev ∈ (mainConfig flags env base).1,
      ev = Event.configGenerator flags.model ∨ ev = Event.overrideFromFile ∨
      ev = Event.overrideFromFlags ∨ ev = Event.overrideNonStrict ∨
      ev = Event.validateParams ∨ ev = Event.lockParams := by
  intro ev h
  unfold mainConfig at h
  repeat' split at h
  all_goals (simp_all; try tauto)

theorem mainConfig_ok_locked (flags : Flags) (env : Env) (base : Params)
    (tr : List Event) (p : Params)
    (h : mainConfig flags env base = (tr, Except.ok p)) : p.locked = true := by
  unfold mainConfig at h
  repeat' split at h
  all_goals
    (try (simp only [Prod.mk.injEq, Except.ok.injEq] at h
          obtain ⟨-, h2⟩ := h
          subst h2
          rfl))
  all_goals simp_all

theorem override_params_dict_locked (p q : Params) (doc : Option ParamsOverride)
    (b : Bool) (h : override_params_dict p doc b = Except.ok q) :
    q.locked = p.locked := by
  unfold override_params_dict at h
  repeat' split at h
  all_goals
    (try (simp only [Except.ok.injEq] at h
          subst h
          rfl))
  all_goals simp_all

theorem mainConfig_file_err (flags : Flags) (env : Env) (base : Params)
    (e : RunError)
    (h : override_params_dict base flags.config_file true = Except.error e) :
    mainConfig flags env base =
      ([Event.configGenerator flags.model, Event.overrideFromFile],
       Except.error e) := by
  unfold mainConfig; rw [h]

theorem mainConfig_flags_err (flags : Flags) (env : Env) (base : Params)
    (p1 : Params) (e : RunError)
    (h1 : override_params_dict base flags.config_file true = Except.ok p1)
    (h2 : override_params_dict p1 flags.params_override true = Except.error e) :
    mainConfig flags env base =
      ([Event.configGenerator flags.model, Event.overrideFromFile,
        Event.overrideFromFlags], Except.error e) := by
  unfold mainConfig
  rw [h1]
  dsimp only
  rw [h2]
  rfl

/-- C1: in train mode the code classifies the run as multi-host whenever
`(replicas + 7) / 8 > 1` under true (float) division, i.e. already for
2 or more replicas, and then rescales the batch size — not only when the
integer ceiling `(replicas + 7) // 8` of replicas over 8 exceeds 1, i.e.
when replicas exceed 8.  At 8 replicas (one full 8-replica host) the code
classifies the run as multi-host and rescales, while the integer worker
count is 1 and 8 does not exceed 8. -/
theorem C1_multi_host_misclassified :
    is_multi_host 8 = true ∧ ¬ (8 > 8) ∧ (8 + 7) / 8 = 1 ∧
    Event.rebindTrainBatch 8 ∈
      (main wFlags { wEnv with num_replicas_in_sync := 8 } wBase).trace := by
  refine ⟨by simp [is_multi_host_iff], by decide, by decide, ?_⟩
  simp +decide [main, mainConfig, mainRun, run_executor, override_params_dict,
    Params.overrideRuntime, Params.validate, Params.lock, pyOr,
    is_multi_host_iff, wFlags, wEnv, wBase]

/-- C2: in train mode, when the code classifies the run as multi-host, the
training input function handed to the executor's train operation carries
batch size `train.batch_size // num_replicas_in_sync` (integer floor
division); when classified single-host it carries the configured global
batch size unchanged. -/
theorem C2_train_batch_rescaling (flags : Flags) (env : Env) (base : Params)
    (tr : List Event) (p : Params)
    (hc : mainConfig flags env base = (tr, Except.ok p))
    (hm : flags.mode = "train")
    (ht : pyOr flags.training_file_pattern p.train_file_pattern ≠ "") :
    (is_multi_host env.num_replicas_in_sync = true →
      Event.executorTrain
        (some { file_pattern := pyOr flags.training_file_pattern p.train_file_pattern,
                mode := ModeKey.TRAIN,
                batch_size := p.train_batch_size / env.num_replicas_in_sync,
                num_examples := none })
        p.model_dir p.train_iterations_per_loop p.train_total_steps
        ∈ (main flags env base).trace) ∧
    (is_multi_host env.num_replicas_in_sync = false →
      Event.executorTrain
        (some { file_pattern := pyOr flags.training_file_pattern p.train_file_pattern,
                mode := ModeKey.TRAIN,
                batch_size := p.train_batch_size,
                num_examples := none })
        p.model_dir p.train_iterations_per_loop p.train_total_steps
        ∈ (main flags env base).trace) := by
  rw [main_ok flags env base tr p hc, mainRun_go flags env tr p (fun hand => ht hand.1)]
  have htf : trainFn flags p =
      some { file_pattern := pyOr flags.training_file_pattern p.train_file_pattern,
             mode := ModeKey.TRAIN, batch_size := p.train_batch_size,
             num_examples := none } := by
    simp only [trainFn, if_neg ht]
  constructor
  · intro him
    rw [htf, run_executor_train_multi flags env p _ _ hm him]
    simp
  · intro him
    rw [htf, run_executor_train_single flags env p _ _ hm him]
    simp

/-- C3: the mode string `train_and_eval`, although documented by the mode
flag's help text as a mode to run, is not handled by `run_executor`: with a
training file pattern present, a run with `mode='train_and_eval'` falls
into the final else branch and fails with the invalid-mode ValueError
naming `train_and_eval`. -/
theorem C3_train_and_eval_rejected :
    (main { wFlags with mode := "train_and_eval" } wEnv wBase).result
      = Except.error (RunError.modeNotFound ("Mode not found: train_and_eval.")) := by
  rfl

/-- C4: when both the chosen training file pattern and the chosen eval file
pattern are empty, `main` fails with the missing-input ValueError whatever
the mode is, no input function is built, and the model factory /
`run_executor` dispatch is never reached. -/
theorem C4_missing_input_checked_first (flags : Flags) (env : Env)
    (base : Params) (tr : List Event) (p : Params)
    (hc : mainConfig flags env base = (tr, Except.ok p))
    (ht : pyOr flags.training_file_pattern p.train_file_pattern = "")
    (he : pyOr flags.eval_file_pattern p.eval_file_pattern = "") :
    (main flags env base).result = Except.error (RunError.missingInput
      "Must provide at least one of training_file_pattern and eval_file_pattern.") ∧
    (∀ f, Event.buildTrainInput f ∉ (main flags env base).trace) ∧
    (∀ f, Event.buildEvalInput f ∉ (main flags env base).trace) ∧
    (∀ m, Event.modelGenerator m ∉ (main flags env base).trace) := by
  rw [main_ok flags env base tr p hc, mainRun_missing flags env tr p ht he]
  have hsh := mainConfig_trace_shape flags env base
  rw [hc] at hsh
  refine ⟨rfl, ?_, ?_, ?_⟩ <;>
    · intro f hmem
      rcases hsh _ hmem with h | h | h | h | h | h <;> simp_all

/-- C5: with a recognized-set-external mode string and at least one file
pattern chosen, `main` builds the input functions for the patterns present,
enters `run_executor` (which first calls the model factory), and only then
fails with the ValueError whose message names the unrecognized mode
string; the trace lists the construction events, which precede the
failure in program order. -/
theorem C5_invalid_mode_after_inputs (flags : Flags) (env : Env)
    (base : Params) (tr : List Event) (p : Params)
    (hc : mainConfig flags env base = (tr, Except.ok p))
    (hm : flags.mode ∉ (["train", "eval", "train_and_eval"] : List String))
    (hpat : ¬(pyOr flags.training_file_pattern p.train_file_pattern = "" ∧
              pyOr flags.eval_file_pattern p.eval_file_pattern = "")) :
    (main flags env base).result =
      Except.error (RunError.modeNotFound ("Mode not found: " ++ flags.mode ++ ".")) ∧
    Event.modelGenerator flags.model ∈ (main flags env base).trace ∧
    (pyOr flags.training_file_pattern p.train_file_pattern ≠ "" →
      Event.buildTrainInput
        { file_pattern := pyOr flags.training_file_pattern p.train_file_pattern,
          mode := ModeKey.TRAIN, batch_size := p.train_batch_size,
          num_examples := none } ∈ (main flags env base).trace) ∧
    (pyOr flags.eval_file_pattern p.eval_file_pattern ≠ "" →
      Event.buildEvalInput
        { file_pattern := pyOr flags.eval_file_pattern p.eval_file_pattern,
          mode := ModeKey.PREDICT_WITH_GT, batch_size := p.eval_batch_size,
          num_examples := some p.eval_samples } ∈ (main flags env base).trace) := by
  have hm1 : flags.mode ≠ "train" := by intro h; apply hm; simp [h]
  have hm2 : flags.mode ≠ "eval" := by intro h; apply hm; simp [h]
  rw [main_ok flags env base tr p hc, mainRun_go flags env tr p hpat,
      run_executor_other flags env p _ _ hm1 hm2]
  refine ⟨rfl, by simp, ?_, ?_⟩
  · intro ht
    have htf : trainFn flags p =
        some { file_pattern := pyOr flags.training_file_pattern p.train_file_pattern,
               mode := ModeKey.TRAIN, batch_size := p.train_batch_size,
               num_examples := none } := by
      simp only [trainFn, if_neg ht]
    rw [htf]
    simp
  · intro he
    have hef : evalFn flags p =
        some { file_pattern := pyOr flags.eval_file_pattern p.eval_file_pattern,
               mode := ModeKey.PREDICT_WITH_GT, batch_size := p.eval_batch_size,
               num_examples := some p.eval_samples } := by
      simp only [evalFn, if_neg he]
    rw [hef]
    simp

/-- C6: when the strict override from the config file, or (with the file
override absent or clean) the strict override from the inline parameter
string, references a key outside the known configuration keys, the run
fails with the unknown-key ConfigError and the validate step never
appears in the trace: both strict override steps strictly precede
validation. -/
theorem C6_strict_override_precedes_validate (flags : Flags) (env : Env)
    (base : Params) (hb : base.locked = false)
    (h : (∃ ov k, flags.config_file = some ov ∧ firstUnknownKey ov = some k) ∨
         ((flags.config_file = none ∨
           ∃ ov, flags.config_file = some ov ∧ firstUnknownKey ov = none) ∧
          ∃ ov2 k2, flags.params_override = some ov2 ∧
            firstUnknownKey ov2 = some k2)) :
    (∃ k, (main flags env base).result = Except.error (RunError.unknownKey k)) ∧
    Event.validateParams ∉ (main flags env base).trace := by
  rcases h with ⟨ov, k, hcf, hk⟩ | ⟨hfst, ov2, k2, hpo, hk2⟩
  · have herr : override_params_dict base flags.config_file true
        = Except.error (RunError.unknownKey k) := by
      rw [hcf]; simp [override_params_dict, hb, hk]
    rw [main_err flags env base _ _ (mainConfig_file_err flags env base _ herr)]
    exact ⟨⟨k, rfl⟩, by simp⟩
  · have h1 : ∃ p1, override_params_dict base flags.config_file true
        = Except.ok p1 := by
      rcases hfst with hnone | ⟨ov, hcf, hkn⟩
      · exact ⟨base, by rw [hnone]; rfl⟩
      · refine ⟨{ ov.updates base with locked := base.locked }, ?_⟩
        rw [hcf]
        simp [override_params_dict, hb, hkn]
    obtain ⟨p1, h1⟩ := h1
    have hp1 : p1.locked = false :=
      (override_params_dict_locked base p1 flags.config_file true h1).trans hb
    have herr2 : override_params_dict p1 flags.params_override true
        = Except.error (RunError.unknownKey k2) := by
      rw [hpo]; simp [override_params_dict, hp1, hk2]
    rw [main_err flags env base _ _
      (mainConfig_flags_err flags env base p1 _ h1 herr2)]
    exact ⟨⟨k2, rfl⟩, by simp⟩

/-- C7: with `mode='eval'` and at least one file pattern, `main` returns
exactly the metric mapping reported by the executor's
evaluate-from-saved-checkpoints operation, and a log event for every
name/value pair of that mapping is emitted (the trace is complete before
the function returns). -/
theorem C7_eval_returns_and_logs (flags : Flags) (env : Env) (base : Params)
    (tr : List Event) (p : Params)
    (hc : mainConfig flags env base = (tr, Except.ok p))
    (hm : flags.mode = "eval")
    (hpat : ¬(pyOr flags.training_file_pattern p.train_file_pattern = "" ∧
              pyOr flags.eval_file_pattern p.eval_file_pattern = "")) :
    (main flags env base).result = Except.ok (RunResult.evalResult env.eval_results) ∧
    ∀ kv ∈ env.eval_results,
      Event.logMetric kv.1 kv.2 ∈ (main flags env base).trace := by
  rw [main_ok flags env base tr p hc, mainRun_go flags env tr p hpat,
      run_executor_eval flags env p _ _ hm]
  refine ⟨rfl, ?_⟩
  intro kv hkv
  have hmm : Event.logMetric kv.1 kv.2 ∈
      env.eval_results.map (fun kv => Event.logMetric kv.1 kv.2) :=
    List.mem_map_of_mem _ hkv
  simp only [List.mem_append]
  tauto

/-- C8: when the configuration phase succeeds, the resulting params object
is locked; every later mutation attempt (a strict or non-strict document
override, or the runtime override) fails with the locked-mutation error;
and the params object in use at dispatch time is exactly the locked one,
unchanged. -/
theorem C8_config_locked_after_validate (flags : Flags) (env : Env)
    (base : Params) (tr : List Event) (p : Params)
    (hc : mainConfig flags env base = (tr, Except.ok p)) :
    p.locked = true ∧
    (∀ ov b, override_params_dict p (some ov) b
      = Except.error RunError.lockedMutation) ∧
    (∀ st md sc, p.overrideRuntime st md sc
      = Except.error RunError.lockedMutation) ∧
    (∀ q, (main flags env base).finalParams = some q → q = p) := by
  have hl := mainConfig_ok_locked flags env base tr p hc
  refine ⟨hl, ?_, ?_, ?_⟩
  · intro ov b; simp [override_params_dict, hl]
  · intro st md sc; simp [Params.overrideRuntime, hl]
  · intro q hq
    rw [main_ok flags env base tr p hc] at hq
    by_cases hcond : (pyOr flags.training_file_pattern p.train_file_pattern = "" ∧
                      pyOr flags.eval_file_pattern p.eval_file_pattern = "")
    · rw [mainRun_missing flags env tr p hcond.1 hcond.2] at hq
      simp at hq
    · rw [mainRun_go flags env tr p hcond] at hq
      simp at hq
      exact hq.symm

/-- C9 counterexample: with `mode='train'`, no training pattern, an eval
pattern, and 2 synchronized replicas (classified multi-host by the code),
the rebinding of the absent training input function fails with a TypeError
before the executor's train operation: the trace ends at the executor
builder, containing no `executorTrain` event at all, so the training
operation is not invoked with an absent input function as the claim
states. -/
theorem C9_counterexample :
    (main xFlags9 xEnv9 xBase9).trace =
      [Event.configGenerator ("retinanet"), Event.overrideFromFile,
       Event.overrideFromFlags, Event.overrideNonStrict, Event.validateParams,
       Event.lockParams,
       Event.buildEvalInput
         { file_pattern := "gs://eval-only", mode := ModeKey.PREDICT_WITH_GT,
           batch_size := 8, num_examples := some 500 },
       Event.modelGenerator ("retinanet"), Event.executorBuilder ("tpu")] ∧
    (main xFlags9 xEnv9 xBase9).result =
      Except.error (RunError.typeError ("the first argument must be callable")) := by
  constructor <;>
    simp +decide [main, mainConfig, mainRun, run_executor, override_params_dict,
      Params.overrideRuntime, Params.validate, Params.lock, pyOr,
      is_multi_host_iff, xFlags9, xEnv9, xBase9, wFlags, wEnv, wBase]

/-- C9 (amended): with `mode='train'` and only an evaluation file pattern,
the missing-input check passes; when the run is classified single-host the
executor's train operation is invoked with an absent (`None`) training
input function, while in a multi-host-classified run the batch-size
rebinding of the absent input function fails with a TypeError before the
train operation; in neither case is the missing-input error raised at this
layer. -/
theorem C9_train_with_only_eval_pattern (flags : Flags) (env : Env)
    (base : Params) (tr : List Event) (p : Params)
    (hc : mainConfig flags env base = (tr, Except.ok p))
    (hm : flags.mode = "train")
    (ht : pyOr flags.training_file_pattern p.train_file_pattern = "")
    (he : pyOr flags.eval_file_pattern p.eval_file_pattern ≠ "") :
    (is_multi_host env.num_replicas_in_sync = false →
       Event.executorTrain none p.model_dir p.train_iterations_per_loop
         p.train_total_steps ∈ (main flags env base).trace ∧
       (main flags env base).result
         = Except.ok (RunResult.trainResult env.train_outcome)) ∧
    (is_multi_host env.num_replicas_in_sync = true →
       (main flags env base).result
         = Except.error (RunError.typeError ("the first argument must be callable"))) ∧
    (∀ m, (main flags env base).result
       ≠ Except.error (RunError.missingInput m)) := by
  have hpat : ¬(pyOr flags.training_file_pattern p.train_file_pattern = "" ∧
                pyOr flags.eval_file_pattern p.eval_file_pattern = "") :=
    fun hand => he hand.2
  have htf : trainFn flags p = none := by simp only [trainFn, if_pos ht]
  rw [main_ok flags env base tr p hc, mainRun_go flags env tr p hpat, htf]
  refine ⟨?_, ?_, ?_⟩
  · intro him
    rw [run_executor_train_single flags env p _ _ hm him]
    exact ⟨by simp, rfl⟩
  · intro him
    rw [run_executor_train_multi_none flags env p _ hm him]
  · intro m
    cases him : is_multi_host env.num_replicas_in_sync
    · rw [run_executor_train_single flags env p _ _ hm him]
      simp
    · rw [run_executor_train_multi_none flags env p _ hm him]
      simp

/-- C10: for each of the two file patterns, a set non-empty command-line
flag wins over the configuration value, and an unset or empty flag falls
back to the configuration value; the chosen pattern is the one bound into
the corresponding input function. -/
theorem C10_pattern_flag_precedence (flags : Flags) (env : Env)
    (base : Params) (tr : List Event) (p : Params)
    (hc : mainConfig flags env base = (tr, Except.ok p)) :
    (∀ s, flags.training_file_pattern = some s → s ≠ "" →
       Event.buildTrainInput
         { file_pattern := s, mode := ModeKey.TRAIN,
           batch_size := p.train_batch_size, num_examples := none }
         ∈ (main flags env base).trace) ∧
    ((flags.training_file_pattern = none ∨ flags.training_file_pattern = some ("")) →
       p.train_file_pattern ≠ "" →
       Event.buildTrainInput
         { file_pattern := p.train_file_pattern, mode := ModeKey.TRAIN,
           batch_size := p.train_batch_size, num_examples := none }
         ∈ (main flags env base).trace) ∧
    (∀ s, flags.eval_file_pattern = some s → s ≠ "" →
       Event.buildEvalInput
         { file_pattern := s, mode := ModeKey.PREDICT_WITH_GT,
           batch_size := p.eval_batch_size, num_examples := some p.eval_samples }
         ∈ (main flags env base).trace) ∧
    ((flags.eval_file_pattern = none ∨ flags.eval_file_pattern = some ("")) →
       p.eval_file_pattern ≠ "" →
       Event.buildEvalInput
         { file_pattern := p.eval_file_pattern, mode := ModeKey.PREDICT_WITH_GT,
           batch_size := p.eval_batch_size, num_examples := some p.eval_samples }
         ∈ (main flags env base).trace) := by
  refine ⟨?_, ?_, ?_, ?_⟩
  · intro s hs hne
    have hpy : pyOr flags.training_file_pattern p.train_file_pattern = s := by
      simp [pyOr, hs, hne]
    rw [main_ok flags env base tr p hc,
        mainRun_go flags env tr p (fun hand => hne (hpy ▸ hand.1))]
    have htf : trainFn flags p =
        some { file_pattern := s, mode := ModeKey.TRAIN,
               batch_size := p.train_batch_size, num_examples := none } := by
      simp only [trainFn, hpy, if_neg hne]
    rw [htf]
    simp
  · intro hf hne
    have hpy : pyOr flags.training_file_pattern p.train_file_pattern
        = p.train_file_pattern := by
      rcases hf with h | h <;> simp [pyOr, h]
    rw [main_ok flags env base tr p hc,
        mainRun_go flags env tr p (fun hand => hne (hpy ▸ hand.1))]
    have htf : trainFn flags p =
        some { file_pattern := p.train_file_pattern, mode := ModeKey.TRAIN,
               batch_size := p.train_batch_size, num_examples := none } := by
      simp only [trainFn, hpy, if_neg hne]
    rw [htf]
    simp
  · intro s hs hne
    have hpy : pyOr flags.eval_file_pattern p.eval_file_pattern = s := by
      simp [pyOr, hs, hne]
    rw [main_ok flags env base tr p hc,
        mainRun_go flags env tr p (fun hand => hne (hpy ▸ hand.2))]
    have hef : evalFn flags p =
        some { file_pattern := s, mode := ModeKey.PREDICT_WITH_GT,
               batch_size := p.eval_batch_size,
               num_examples := some p.eval_samples } := by
      simp only [evalFn, hpy, if_neg hne]
    rw [hef]
    simp
  · intro hf hne
    have hpy : pyOr flags.eval_file_pattern p.eval_file_pattern
        = p.eval_file_pattern := by
      rcases hf with h | h <;> simp [pyOr, h]
    rw [main_ok flags env base tr p hc,
        mainRun_go flags env tr p (fun hand => hne (hpy ▸ hand.2))]
    have hef : evalFn flags p =
        some { file_pattern := p.eval_file_pattern,
               mode := ModeKey.PREDICT_WITH_GT,
               batch_size := p.eval_batch_size,
               num_examples := some p.eval_samples } := by
      simp only [evalFn, hpy, if_neg hne]
    rw [hef]
    simp

theorem C2_witness :
    Event.executorTrain
      (some { file_pattern := "gs://train", mode := ModeKey.TRAIN,
              batch_size := 4, num_examples := none })
      "gs://model" 10 100 ∈ (main wFlags wEnv wBase).trace := by
  have h := (C2_train_batch_rescaling wFlags wEnv wBase wTrace wP rfl rfl
    (by decide)).1 (by simp [is_multi_host_iff, wEnv])
  simpa [wFlags, wP, wBase, wEnv, pyOr] using h

theorem C4_witness :
    (main wFlags wEnv w4Base).result = Except.error (RunError.missingInput
      "Must provide at least one of training_file_pattern and eval_file_pattern.") :=
  (C4_missing_input_checked_first wFlags wEnv w4Base wTrace w4P rfl rfl rfl).1

theorem C5_witness :
    (main { wFlags with mode := "bogus" } wEnv wBase).result
      = Except.error (RunError.modeNotFound ("Mode not found: bogus.")) := by
  have h := (C5_invalid_mode_after_inputs { wFlags with mode := "bogus" }
    wEnv wBase wTrace wP rfl (by decide) (by decide)).1
  exact h

theorem C6_witness :
    (∃ k, (main { wFlags with config_file := some ovBad } wEnv wBase).result
      = Except.error (RunError.unknownKey k)) ∧
    Event.validateParams ∉
      (main { wFlags with config_file := some ovBad } wEnv wBase).trace :=
  C6_strict_override_precedes_validate { wFlags with config_file := some ovBad }
    wEnv wBase rfl (Or.inl ⟨ovBad, "bogus.key", rfl, by decide⟩)

theorem C7_witness :
    (main { wFlags with mode := "eval" } wEnv wBase).result
      = Except.ok (RunResult.evalResult [("AP", 37)]) ∧
    Event.logMetric ("AP") 37 ∈ (main { wFlags with mode := "eval" } wEnv wBase).trace := by
  have h := C7_eval_returns_and_logs { wFlags with mode := "eval" }
    wEnv wBase wTrace wP rfl rfl (by decide)
  exact ⟨h.1, h.2 ("AP", 37) (by decide)⟩

theorem C8_witness :
    wP.locked = true ∧
    override_params_dict wP (some ovAny) true
      = Except.error RunError.lockedMutation := by
  have h := C8_config_locked_after_validate wFlags wEnv wBase wTrace wP rfl
  exact ⟨h.1, h.2.1 ovAny true⟩

theorem C9_witness :
    Event.executorTrain none ("gs://model") 10 100
      ∈ (main xFlags9 { wEnv with num_replicas_in_sync := 1 } xBase9).trace := by
  have h := (C9_train_with_only_eval_pattern xFlags9
    { wEnv with num_replicas_in_sync := 1 } xBase9 wTrace x9P rfl rfl
    (by decide) (by decide)).1 (by simp [is_multi_host_iff])
  simpa [x9P, wP, wBase] using h.1

theorem C10_witness :
    Event.buildTrainInput
      { file_pattern := "gs://flag", mode := ModeKey.TRAIN,
        batch_size := 64, num_examples := none }
      ∈ (main { wFlags with training_file_pattern := some ("gs://flag") } wEnv wBase).trace := by
  have h := (C10_pattern_flag_precedence
    { wFlags with training_file_pattern := some ("gs://flag") }
    wEnv wBase wTrace wP rfl).1 ("gs://flag") rfl (by decide)
  simpa [wP, wBase] using h

end DetectionMain
